import Mathlib

/-!
Verification of the GARCH-200sma daily signal pipeline (src/main.py, with the
duplicate validator in src/validator.py).  The volatility z-score state machine,
the SMA trend filter, the exposure blender, the data validator and the
per-ticker orchestrator are embedded as executable Lean definitions; ℚ stands
for the Python floats (only order comparisons and field arithmetic are used on
the paths modelled here) and `Option` marks pandas NaN / undefined entries.
-/

attribute [local semireducible] Rat.add Rat.mul Rat.sub Rat.inv Rat.ofScientific

set_option maxRecDepth 100000

/-- The two regime states of the hysteresis state machine.  In the source the
state is the float column `State`: `1.0` is Hold, `0.0` is Exit. -/
inductive RegimeState where
  | Hold : RegimeState
  | Exit : RegimeState
deriving DecidableEq, Repr

/-- Raw signal of main.py lines 197-199: `Raw_Signal` starts as NaN, is set to
Exit (0.0) where `Z_Score > garch_exit`, then set to Hold (1.0) where
`Z_Score < garch_entry` (the second assignment overwrites the first, so the
entry comparison has priority), and stays NaN (`none`) otherwise. -/
def rawSignal (exitT entryT z : ℚ) : Option RegimeState :=
  if z < entryT then some RegimeState.Hold
  else if exitT < z then some RegimeState.Exit
  else none

/-- Forward fill of the raw signals (`ffill` in line 200), carrying the current
state `cur` through dates whose raw signal is NaN. -/
def regimeGo (exitT entryT : ℚ) (cur : RegimeState) : List ℚ → List RegimeState
  | [] => []
  | z :: rest =>
    let s := (rawSignal exitT entryT z).getD cur
    s :: regimeGo exitT entryT s rest

/-- main.py line 200: `State = Raw_Signal.ffill().fillna(1.0)` — forward fill
with initial default Hold for dates before any defined raw signal. -/
def regimeStates (exitT entryT : ℚ) (zs : List ℚ) : List RegimeState :=
  regimeGo exitT entryT RegimeState.Hold zs

/-- main.py line 231: GARCH state as a number, Hold = 1.0, Exit = 0.0. -/
def garchStateVal : RegimeState → ℚ
  | RegimeState.Hold => 1
  | RegimeState.Exit => 0

/-- main.py line 229: `sma_signal = 1.0 if current_price > current_sma else 0.0`. -/
def smaSignalVal (isAbove : Bool) : ℚ := if isAbove then 1 else 0

/-- main.py line 231: `blend_score = (0.5 * garch_state) + (0.5 * sma_signal)`. -/
def blendScore (r : RegimeState) (isAbove : Bool) : ℚ :=
  (1 / 2) * garchStateVal r + (1 / 2) * smaSignalVal isAbove

/-- main.py lines 233-235: the final exposure percentage decided from the blend
score (1.0 → 100%, 0.5 → 50%, otherwise → 0%). -/
def finalExposure (r : RegimeState) (isAbove : Bool) : ℕ :=
  if blendScore r isAbove = 1 then 100
  else if blendScore r isAbove = 1 / 2 then 50
  else 0

/-- Arithmetic mean of a list of rationals (`rolling(...).mean()` on a full
window). -/
def listMean (l : List ℚ) : ℚ := l.sum / l.length

/-- main.py line 165 at the as-of date: `SMA = Close.rolling(window).mean()` is
defined at the last index exactly when the series has at least `window` closes,
and then equals the mean of the trailing `window` closes. -/
def movingAverage (closes : List ℚ) (window : ℕ) : Option ℚ :=
  if 1 ≤ window ∧ window ≤ closes.length then
    some (listMean (closes.drop (closes.length - window)))
  else none

/-- main.py lines 229 and 242: `current_price > current_sma` with the pandas
float semantics that any comparison against NaN (undefined SMA) is `false`. -/
def isAboveTrend (closes : List ℚ) (window : ℕ) : Bool :=
  match closes.getLast?, movingAverage closes window with
  | some c, some m => decide (m < c)
  | _, _ => false

/-- One row of the downloaded price frame: the date (a naive calendar day,
counted in whole days, after the timezone offset has been stripped) and the
`Close` value, `none` standing for a pandas NaN. -/
structure Bar where
  date : ℤ
  close : Option ℚ
deriving DecidableEq, Repr

/-- The validation messages appended by `DataValidator.log`, one constructor
per message shape, carrying the values interpolated into the f-string. -/
inductive CheckMsg where
  | emptyData : CheckMsg
  | stale : ℤ → ℤ → CheckMsg
  | tooShort : ℕ → ℕ → CheckMsg
  | zeroClose : CheckMsg
  | tooManyNaN : ℕ → CheckMsg
  | extremeMove : ℤ → ℚ → CheckMsg
deriving DecidableEq, Repr

/-- Rendering of a validation message to its text (main.py lines 39, 54, 61,
68, 75, 89); used to state what the recency message literally contains. -/
def renderMsg : CheckMsg → String
  | CheckMsg.emptyData => "empty data"
  | CheckMsg.stale lag lastD =>
      "stale data (behind " ++ toString lag ++ " days, last date: " ++ toString lastD ++ ")"
  | CheckMsg.tooShort n m =>
      "insufficient length (" ++ toString n ++ " < " ++ toString m ++ ")"
  | CheckMsg.zeroClose => "found close equal to 0"
  | CheckMsg.tooManyNaN n => "too many NaN (" ++ toString n ++ ")"
  | CheckMsg.extremeMove d c =>
      "extreme price move (" ++ toString d ++ ": " ++ toString c ++ ")"

/-- `self.data.index[-1]` normalized to a naive day number (main.py lines
45-47); only used on a non-empty series. -/
def lastDate (bars : List Bar) : ℤ := (bars.getLastD ⟨0, none⟩).date

/-- main.py line 51: `days_diff = (now - last_date).days` at day granularity. -/
def daysDiff (now : ℤ) (bars : List Bar) : ℤ := now - lastDate bars

/-- main.py lines 37-42, `check_empty`: fails on an empty frame. -/
def check_empty (bars : List Bar) : Bool := !bars.isEmpty

/-- main.py lines 44-57, `check_recency` with `max_lag_days=5`: passes when the
last bar is at most 5 days behind `now`. -/
def check_recency (now : ℤ) (bars : List Bar) : Bool := decide (daysDiff now bars ≤ 5)

/-- main.py lines 59-64, `check_length` with `min_days=500`. -/
def check_length (bars : List Bar) : Bool := decide (500 ≤ bars.length)

/-- `(self.data['Close'] == 0).any()` — a NaN close compares unequal to 0, so
only *present* zero closes count (main.py line 67). -/
def hasZeroClose (bars : List Bar) : Bool := bars.any (fun b => b.close == some 0)

/-- `self.data['Close'].isnull().sum()` (main.py line 73). -/
def nanCount (bars : List Bar) : ℕ := (bars.filter (fun b => b.close == none)).length

/-- `Close.ffill()` (main.py line 80): each missing close is replaced by the
most recent present close before it; leading missing closes stay missing. -/
def ffillGo (last : Option ℚ) : List Bar → List Bar
  | [] => []
  | b :: rest =>
    match b.close with
    | some v => b :: ffillGo (some v) rest
    | none => ⟨b.date, last⟩ :: ffillGo last rest

/-- Forward fill of the `Close` column starting from no prior value. -/
def ffillBars (bars : List Bar) : List Bar := ffillGo none bars

/-- The most recent present value in `l` (read left to right), falling back to
the accumulator `last`; the spec-side meaning of a forward fill. -/
def lastKnown (last : Option ℚ) (l : List (Option ℚ)) : Option ℚ :=
  l.foldl (fun acc o => match o with | some v => some v | none => acc) last

/-- main.py lines 66-81, `check_zeros_and_nans`: a zero close is an immediate
hard failure; more than 10 missing closes is a hard failure; otherwise any
missing closes are repaired in place by `ffill` and the check passes.
Returns (pass flag, data after the check, messages logged by the check). -/
def check_zeros_and_nans (bars : List Bar) : Bool × List Bar × List CheckMsg :=
  if hasZeroClose bars then (false, bars, [CheckMsg.zeroClose])
  else if 0 < nanCount bars then
    if 10 < nanCount bars then (false, bars, [CheckMsg.tooManyNaN (nanCount bars)])
    else (true, ffillBars bars, [])
  else (true, bars, [])

/-- main.py line 84: `Close.pct_change().dropna()` — day-over-day relative
change, kept only where both the previous and the current close are present,
paired with the date of the current bar. -/
def pct_change_pairs (bars : List Bar) : List (ℤ × ℚ) :=
  (bars.zip bars.tail).filterMap (fun p =>
    match p.1.close, p.2.close with
    | some a, some b => some (p.2.date, b / a - 1)
    | _, _ => none)

/-- main.py line 85 with `threshold=0.50` (line 30): the days whose absolute
move exceeds 50%. -/
def extremeDays (bars : List Bar) : List (ℤ × ℚ) :=
  (pct_change_pairs bars).filter (fun p => decide ((1 : ℚ) / 2 < |p.2|))

/-- Result of `DataValidator.run_all_checks`: the returned pass flag, the
(possibly repaired) `self.data`, and `self.logs`. -/
structure ValidatorResult where
  passed : Bool
  data : List Bar
  logs : List CheckMsg
deriving DecidableEq, Repr

/-- main.py lines 22-35, `run_all_checks`: the checks run in the fixed order
empty, recency, length, zeros/NaNs, extreme moves; the first failing check
returns immediately with the message it logged, later checks are skipped, and
the frame is only rewritten by the `ffill` repair inside the zeros/NaNs check
(main.py's version logs nothing on passing checks). -/
def run_all_checks (now : ℤ) (bars : List Bar) : ValidatorResult :=
  if bars.isEmpty then ⟨false, bars, [CheckMsg.emptyData]⟩
  else if !check_recency now bars then
    ⟨false, bars, [CheckMsg.stale (daysDiff now bars) (lastDate bars)]⟩
  else if !check_length bars then ⟨false, bars, [CheckMsg.tooShort bars.length 500]⟩
  else
    match check_zeros_and_nans bars with
    | (false, d, ms) => ⟨false, d, ms⟩
    | (true, d, _) =>
      match (extremeDays d).getLast? with
      | some p => ⟨false, d, [CheckMsg.extremeMove p.1 p.2]⟩
      | none => ⟨true, d, []⟩

/-- Trailing window of 126 observations ending at index `i` (main.py lines
188-190): `rolling(window=126)` is defined only once 126 observations are
available, i.e. at indices `i ≥ 125`. -/
def rollingWindow126 (xs : List ℚ) (i : ℕ) : Option (List ℚ) :=
  if 126 ≤ i + 1 then some ((xs.take (i + 1)).drop (i + 1 - 126)) else none

/-- Sample variance with `ddof=1`, the square of the pandas rolling `std`;
the rolling std of a full window is zero or undefined exactly when this is
zero (a std is NaN only on a short window, excluded by `rollingWindow126`). -/
def sampleVariance (l : List ℚ) : ℚ :=
  ((l.map (fun x => (x - listMean l) ^ 2)).sum) / ((l.length : ℚ) - 1)

/-- main.py lines 188-191: the z-score `(vol - rolling mean) / rolling std` at
index `i` of the annualized volatility series is a finite, defined float
exactly when the 126-window is full and the rolling std is nonzero (a zero
std gives `0.0 / 0.0 = NaN`, since the window is then constant and the
numerator vanishes too). -/
def zScoreDefinedAt (vols : List ℚ) (i : ℕ) : Bool :=
  match rollingWindow126 vols i with
  | none => false
  | some w => decide (sampleVariance w ≠ 0)

/-- main.py line 194: `pd.DataFrame({Z_Score}).dropna().tail(500)` — the
indices of the volatility series whose z-score survives into `analysis_df`:
the defined ones, restricted to the last 500. -/
def analysisIndices (vols : List ℚ) : List ℕ :=
  let defined := (List.range vols.length).filter (fun i => zScoreDefinedAt vols i)
  defined.drop (defined.length - 500)

/-- main.py lines 203-204 and 241: `current_z` is `z_score.loc[last_idx]` when
the last index is in the series (else `z_score.iloc[-1]`); both read the last
entry of the raw (un-dropped) z-score series, and `round(current_z, 2)` is
written into the record, so the record's z field is a defined number exactly
when the z-score at the last index is defined. -/
def recordZDefined (vols : List ℚ) : Bool := zScoreDefinedAt vols (vols.length - 1)

/-- A final per-ticker signal record; only its identity matters to the
orchestrator loop, so the model keeps just the ticker it was built for. -/
structure SignalRecord where
  ticker : String
deriving DecidableEq, Repr

/-- main.py lines 258-263: the per-ticker loop.  Each configured ticker's
`calculate_strategy` call either returns a record (`Except.ok` — this includes
the DataError / ValidationFailed / ModelError records it builds itself) or
raises (`Except.error`); a raised exception is caught by the per-ticker
`except`, printed, and nothing is appended for that ticker, while the loop
continues with the remaining tickers. -/
def runAllTickers (outcomes : List (String × Except String SignalRecord)) :
    List SignalRecord :=
  outcomes.filterMap (fun p => p.2.toOption)

/-- The z-score sequence of the spec's scenario:
`[0.5, 1.2, 2.1, 2.3, 0.8, -0.5]`. -/
def scenarioZs : List ℚ := [1 / 2, 6 / 5, 21 / 10, 23 / 10, 4 / 5, -(1 / 2)]

theorem regimeGo_length (exitT entryT : ℚ) (cur : RegimeState) (zs : List ℚ) :
    (regimeGo exitT entryT cur zs).length = zs.length := by
  induction zs generalizing cur with
  | nil => rfl
  | cons z rest ih => simp [regimeGo, ih]

theorem regimeGo_getD (exitT entryT : ℚ) (zs : List ℚ) :
    ∀ (cur : RegimeState) (i : ℕ), i < zs.length →
      (regimeGo exitT entryT cur zs).getD i RegimeState.Hold
        = ((zs.take (i + 1)).filterMap (rawSignal exitT entryT)).getLastD cur := by
  induction zs with
  | nil => intro cur i h; simp at h
  | cons z rest ih =>
    intro cur i h
    cases i with
    | zero =>
      cases hr : rawSignal exitT entryT z <;>
        simp [regimeGo, hr]
    | succ i =>
      have h' : i < rest.length := by simpa using h
      have key := ih ((rawSignal exitT entryT z).getD cur) i h'
      cases hr : rawSignal exitT entryT z with
      | none =>
        simp only [hr, Option.getD_none] at key
        simpa [regimeGo, hr] using key
      | some r =>
        simp only [hr, Option.getD_some] at key
        have hfm : ((z :: rest).take (i + 1 + 1)).filterMap (rawSignal exitT entryT)
            = r :: (rest.take (i + 1)).filterMap (rawSignal exitT entryT) := by
          simp [List.take_succ_cons, List.filterMap_cons, hr]
        rw [hfm, List.getLastD_cons]
        simpa [regimeGo, hr] using key

theorem regimeGo_step (exitT entryT : ℚ) (zs : List ℚ) :
    ∀ (cur : RegimeState) (i : ℕ), i + 1 < zs.length →
      (regimeGo exitT entryT cur zs).getD (i + 1) RegimeState.Hold
        = (rawSignal exitT entryT (zs.getD (i + 1) 0)).getD
            ((regimeGo exitT entryT cur zs).getD i RegimeState.Hold) := by
  induction zs with
  | nil => intro cur i h; simp at h
  | cons z rest ih =>
    intro cur i h
    cases i with
    | zero =>
      cases rest with
      | nil => simp at h
      | cons z' rest' => simp [regimeGo]
    | succ i =>
      have h' : i + 1 < rest.length := by simpa using h
      have key := ih ((rawSignal exitT entryT z).getD cur) i h'
      simpa [regimeGo] using key

theorem regimeGo_const (exitT entryT : ℚ) (zs : List ℚ) :
    ∀ cur : RegimeState, (∀ z ∈ zs, rawSignal exitT entryT z = none) →
      regimeGo exitT entryT cur zs = List.replicate zs.length cur := by
  induction zs with
  | nil => intro cur _; rfl
  | cons z rest ih =>
    intro cur hall
    have hz : rawSignal exitT entryT z = none := hall z (by simp)
    have hrest : ∀ z' ∈ rest, rawSignal exitT entryT z' = none :=
      fun z' hz' => hall z' (by simp [hz'])
    simp [regimeGo, hz, List.replicate_succ, ih cur hrest]


theorem rawSignal_some_hold (exitT entryT z : ℚ)
    (h : rawSignal exitT entryT z = some RegimeState.Hold) : z < entryT := by
  unfold rawSignal at h
  split_ifs at h with h1 h2
  · exact h1
  · simp at h

theorem rawSignal_some_exit (exitT entryT z : ℚ)
    (h : rawSignal exitT entryT z = some RegimeState.Exit) : exitT < z := by
  unfold rawSignal at h
  split_ifs at h with h1 h2
  · simp at h
  · exact h2

/-- C1 (amended): for thresholds with exitThreshold > entryThreshold, the
regime state at each index is the most recent defined raw signal at or before
that index (Exit where z > exitThreshold, Hold where z < entryThreshold,
undefined otherwise), forward-filled, defaulting to Hold before any defined
raw signal; and the scenario input [0.5, 1.2, 2.1, 2.3, 0.8, -0.5] with
exitThreshold 2 and entryThreshold 1 yields the states
[Hold, Hold, Exit, Exit, Hold, Hold] (0.8 < 1 raises a Hold raw signal, so
the fifth state is Hold, not the Exit the original claim states). -/
theorem c1_regime_forward_fill (exitT entryT : ℚ) (zs : List ℚ) (i : ℕ)
    (_hth : entryT < exitT) (hi : i < zs.length) :
    (regimeStates exitT entryT zs).getD i RegimeState.Hold
      = ((zs.take (i + 1)).filterMap (rawSignal exitT entryT)).getLastD RegimeState.Hold
    ∧ regimeStates 2 1 scenarioZs
      = [RegimeState.Hold, RegimeState.Hold, RegimeState.Exit, RegimeState.Exit,
         RegimeState.Hold, RegimeState.Hold] :=
  ⟨regimeGo_getD exitT entryT zs RegimeState.Hold i hi, by decide⟩

/-- C1 counterexample: on the code, the claim's concrete scenario is wrong.
With exitThreshold 2 and entryThreshold 1, the z-score 0.8 is below the entry
threshold, so its raw signal is Hold (not undefined) and the fifth state is
Hold; the states are not [Hold, Hold, Exit, Exit, Exit, Hold]. -/
theorem c1_counterexample :
    regimeStates 2 1 scenarioZs
      ≠ [RegimeState.Hold, RegimeState.Hold, RegimeState.Exit, RegimeState.Exit,
         RegimeState.Exit, RegimeState.Hold] := by decide

theorem c1_witness :
    (regimeStates 2 1 scenarioZs).getD 4 RegimeState.Hold
      = ((scenarioZs.take 5).filterMap (rawSignal 2 1)).getLastD RegimeState.Hold
    ∧ regimeStates 2 1 scenarioZs
      = [RegimeState.Hold, RegimeState.Hold, RegimeState.Exit, RegimeState.Exit,
         RegimeState.Hold, RegimeState.Hold] :=
  c1_regime_forward_fill 2 1 scenarioZs 4 (by decide) (by decide)

/-- C2: a z-score sequence lying strictly inside the open hysteresis band
(entryThreshold, exitThreshold) never changes the regime state (every state is
the default Hold); an Exit state can turn to Hold at the next index only when
that z-score is strictly below entryThreshold, and a Hold state can turn to
Exit only when that z-score strictly exceeds exitThreshold. -/
theorem c2_hysteresis (exitT entryT : ℚ) (zs : List ℚ) :
    ((∀ z ∈ zs, entryT < z ∧ z < exitT) →
        regimeStates exitT entryT zs = List.replicate zs.length RegimeState.Hold)
    ∧ (∀ i : ℕ, i + 1 < zs.length →
        (regimeStates exitT entryT zs).getD i RegimeState.Hold = RegimeState.Exit →
        (regimeStates exitT entryT zs).getD (i + 1) RegimeState.Hold = RegimeState.Hold →
        zs.getD (i + 1) 0 < entryT)
    ∧ (∀ i : ℕ, i + 1 < zs.length →
        (regimeStates exitT entryT zs).getD i RegimeState.Hold = RegimeState.Hold →
        (regimeStates exitT entryT zs).getD (i + 1) RegimeState.Hold = RegimeState.Exit →
        exitT < zs.getD (i + 1) 0) := by
  refine ⟨?_, ?_, ?_⟩
  · intro hband
    have hnone : ∀ z ∈ zs, rawSignal exitT entryT z = none := by
      intro z hz
      obtain ⟨h1, h2⟩ := hband z hz
      unfold rawSignal
      rw [if_neg (not_lt.mpr h1.le), if_neg (not_lt.mpr h2.le)]
    exact regimeGo_const exitT entryT zs RegimeState.Hold hnone
  · intro i hi hPrev hNext
    have hstep := regimeGo_step exitT entryT zs RegimeState.Hold i hi
    unfold regimeStates at hPrev hNext
    rw [hPrev, hNext] at hstep
    cases hr : rawSignal exitT entryT (zs.getD (i + 1) 0) with
    | none => rw [hr] at hstep; exact absurd hstep.symm (by decide)
    | some r =>
      rw [hr] at hstep
      simp only [Option.getD_some] at hstep
      rw [← hstep] at hr
      exact rawSignal_some_hold _ _ _ hr
  · intro i hi hPrev hNext
    have hstep := regimeGo_step exitT entryT zs RegimeState.Hold i hi
    unfold regimeStates at hPrev hNext
    rw [hPrev, hNext] at hstep
    cases hr : rawSignal exitT entryT (zs.getD (i + 1) 0) with
    | none => rw [hr] at hstep; exact absurd hstep.symm (by decide)
    | some r =>
      rw [hr] at hstep
      simp only [Option.getD_some] at hstep
      rw [← hstep] at hr
      exact rawSignal_some_exit _ _ _ hr

theorem c2_witness :
    regimeStates 2 1 [3 / 2, 5 / 4] = List.replicate 2 RegimeState.Hold
    ∧ ([3, 1 / 2] : List ℚ).getD 1 0 < 1
    ∧ (2 : ℚ) < ([1 / 2, 3] : List ℚ).getD 1 0 :=
  ⟨(c2_hysteresis 2 1 [3 / 2, 5 / 4]).1 (by decide),
   (c2_hysteresis 2 1 [3, 1 / 2]).2.1 0 (by decide) (by decide) (by decide),
   (c2_hysteresis 2 1 [1 / 2, 3]).2.2 0 (by decide) (by decide) (by decide)⟩

/-- C3: the final exposure is a pure function of (regimeState, trendState)
covering all four combinations: Hold/above → 100%, Hold/below → 50%,
Exit/above → 50%, Exit/below → 0%. -/
theorem c3_blend_table :
    finalExposure RegimeState.Hold true = 100
    ∧ finalExposure RegimeState.Hold false = 50
    ∧ finalExposure RegimeState.Exit true = 50
    ∧ finalExposure RegimeState.Exit false = 0 := by decide

/-- C9: whenever the moving average is defined, the trend flag is true exactly
when the current close strictly exceeds the moving average; a close equal to
the moving average gives false (Exit-equivalent). -/
theorem c9_trend_boundary (closes : List ℚ) (window : ℕ) (c m : ℚ)
    (hc : closes.getLast? = some c) (hm : movingAverage closes window = some m) :
    (isAboveTrend closes window = true ↔ m < c)
    ∧ (c = m → isAboveTrend closes window = false) := by
  constructor
  · unfold isAboveTrend
    rw [hc, hm]
    simp
  · intro hcm
    unfold isAboveTrend
    rw [hc, hm]
    simp [hcm]

theorem c9_witness :
    (isAboveTrend [(1 : ℚ), 1] 1 = true ↔ (1 : ℚ) < 1)
    ∧ ((1 : ℚ) = 1 → isAboveTrend [(1 : ℚ), 1] 1 = false) :=
  c9_trend_boundary [(1 : ℚ), 1] 1 1 1 (by decide) (by decide)

/-- C4 (amended): the z-score at an index is undefined whenever fewer than 126
observations are available, and whenever the rolling std is zero (zero sample
variance); every index that survives into the regime analysis frame
(`dropna().tail(500)`) has a defined z-score; but the value recorded in the
final signal record is the raw z-score at the *last* index of the series, so
it is defined only when that last z-score is (the original claim that no
undefined value ever reaches the record is refuted by `c4_counterexample`). -/
theorem c4_zscore_definedness (vols : List ℚ) (i : ℕ) :
    (i + 1 < 126 → zScoreDefinedAt vols i = false)
    ∧ (∀ w, rollingWindow126 vols i = some w → sampleVariance w = 0 →
        zScoreDefinedAt vols i = false)
    ∧ (i ∈ analysisIndices vols → zScoreDefinedAt vols i = true)
    ∧ recordZDefined vols = zScoreDefinedAt vols (vols.length - 1) := by
  refine ⟨?_, ?_, ?_, rfl⟩
  · intro hlt
    unfold zScoreDefinedAt rollingWindow126
    rw [if_neg (by omega)]
  · intro w hw hv
    unfold zScoreDefinedAt
    rw [hw]
    simp [hv]
  · intro hmem
    simp only [analysisIndices] at hmem
    have h1 := List.mem_of_mem_drop hmem
    exact (List.mem_filter.mp h1).2

/-- C4 counterexample: take the annualized volatility series `0` followed by
126 constant values.  The regime analysis frame is non-empty (index 125 has a
defined z-score, so the success path completes), yet the z-score at the last
index 126 sits on a constant 126-window: its rolling std is zero, the z-score
is undefined (0.0/0.0 = NaN), and it is exactly the `current_z` that main.py
line 204 selects and line 241 writes into the final record. -/
theorem c4_counterexample :
    analysisIndices ((0 : ℚ) :: List.replicate 126 1) = [125]
    ∧ recordZDefined ((0 : ℚ) :: List.replicate 126 1) = false := by decide

theorem c4_witness :
    zScoreDefinedAt ([] : List ℚ) 0 = false
    ∧ zScoreDefinedAt (List.replicate 126 (1 : ℚ)) 125 = false
    ∧ zScoreDefinedAt ((0 : ℚ) :: List.replicate 125 1) 125 = true :=
  ⟨(c4_zscore_definedness [] 0).1 (by decide),
   (c4_zscore_definedness (List.replicate 126 (1 : ℚ)) 125).2.1 (List.replicate 126 1)
      (by decide) (by decide),
   (c4_zscore_definedness ((0 : ℚ) :: List.replicate 125 1) 125).2.2.1 (by decide)⟩

/-- C8 (amended): the output batch holds exactly one record per ticker whose
`calculate_strategy` call returned (normally or with one of its own error
records); every returned record appears in the batch no matter which other
tickers raised, so one ticker's failure never prevents the others — but a
ticker whose call raised an exception contributes no record at all. -/
theorem c8_per_ticker_records (outcomes : List (String × Except String SignalRecord)) :
    (runAllTickers outcomes).length
      = (outcomes.filter (fun p => p.2.toOption.isSome)).length
    ∧ (∀ t r, (t, Except.ok r) ∈ outcomes → r ∈ runAllTickers outcomes) := by
  constructor
  · unfold runAllTickers
    induction outcomes with
    | nil => rfl
    | cons p rest ih =>
      cases hp : p.2.toOption with
      | none => simp [List.filterMap_cons, List.filter_cons, hp, ih]
      | some r => simp [List.filterMap_cons, List.filter_cons, hp, ih]
  · intro t r hmem
    exact List.mem_filterMap.mpr ⟨(t, Except.ok r), hmem, rfl⟩

/-- C8 counterexample: a run of three configured tickers in which the middle
ticker's pipeline raises an unexpected exception (caught by the per-ticker
`except` of main.py lines 259-263, which logs it and appends nothing) produces
an output batch of two records, not three: that ticker yields no SignalRecord,
refuting "each configured ticker yields exactly one SignalRecord ... whether
the pipeline for that ticker succeeds or fails in any way". -/
theorem c8_counterexample :
    ([ ("UPRO", Except.ok (SignalRecord.mk "UPRO")),
       ("EURL", (Except.error "unexpected exception" : Except String SignalRecord)),
       ("EDC", Except.ok (SignalRecord.mk "EDC"))]).length = 3
    ∧ (runAllTickers
        [ ("UPRO", Except.ok (SignalRecord.mk "UPRO")),
          ("EURL", Except.error "unexpected exception"),
          ("EDC", Except.ok (SignalRecord.mk "EDC"))]).length = 2 :=
  ⟨rfl, rfl⟩

theorem c8_witness :
    SignalRecord.mk "EDC" ∈ runAllTickers
      [ ("UPRO", Except.ok (SignalRecord.mk "UPRO")),
        ("EURL", (Except.error "unexpected exception" : Except String SignalRecord)),
        ("EDC", Except.ok (SignalRecord.mk "EDC"))] :=
  (c8_per_ticker_records
      [ ("UPRO", Except.ok (SignalRecord.mk "UPRO")),
        ("EURL", (Except.error "unexpected exception" : Except String SignalRecord)),
        ("EDC", Except.ok (SignalRecord.mk "EDC"))]).2 "EDC" (SignalRecord.mk "EDC")
    (by simp)

theorem ffillGo_length (last : Option ℚ) (bars : List Bar) :
    (ffillGo last bars).length = bars.length := by
  induction bars generalizing last with
  | nil => rfl
  | cons b rest ih => cases hb : b.close <;> simp [ffillGo, hb, ih]

theorem ffillGo_close_getD (bars : List Bar) :
    ∀ (last : Option ℚ) (i : ℕ), i < bars.length →
      ((ffillGo last bars).getD i (Bar.mk 0 none)).close
        = lastKnown last ((bars.take (i + 1)).map (fun b => b.close)) := by
  induction bars with
  | nil => intro last i h; simp at h
  | cons b rest ih =>
    intro last i h
    cases i with
    | zero =>
      cases hb : b.close <;> simp [ffillGo, hb, lastKnown]
    | succ i =>
      have h' : i < rest.length := by simpa using h
      cases hb : b.close with
      | none =>
        have key := ih last i h'
        simpa [ffillGo, hb, lastKnown] using key
      | some v =>
        have key := ih (some v) i h'
        simpa [ffillGo, hb, lastKnown] using key

theorem ffillGo_date_getD (bars : List Bar) :
    ∀ (last : Option ℚ) (i : ℕ),
      ((ffillGo last bars).getD i (Bar.mk 0 none)).date
        = (bars.getD i (Bar.mk 0 none)).date := by
  induction bars with
  | nil => intro last i; rfl
  | cons b rest ih =>
    intro last i
    cases i with
    | zero => cases hb : b.close <;> simp [ffillGo, hb]
    | succ i =>
      cases hb : b.close with
      | none => simpa [ffillGo, hb] using ih last i
      | some v => simpa [ffillGo, hb] using ih (some v) i

theorem check_zeros_and_nans_pass (bars : List Bar) :
    (check_zeros_and_nans bars).1
      = (!hasZeroClose bars && decide (nanCount bars ≤ 10)) := by
  unfold check_zeros_and_nans
  by_cases h0 : hasZeroClose bars
  · simp [h0]
  · by_cases h2 : 10 < nanCount bars
    · have h1 : 0 < nanCount bars := by omega
      simp [h0, h1, h2, Nat.not_le.mpr h2]
    · by_cases h1 : 0 < nanCount bars
      · simp [h0, h1, h2, Nat.le_of_not_lt h2]
      · simp [h0, h1, Nat.le_of_not_lt h2]

theorem check_zeros_and_nans_msgs (bars : List Bar) :
    (check_zeros_and_nans bars).2.2
      = if hasZeroClose bars then [CheckMsg.zeroClose]
        else if 10 < nanCount bars then [CheckMsg.tooManyNaN (nanCount bars)]
        else [] := by
  unfold check_zeros_and_nans
  by_cases h0 : hasZeroClose bars
  · simp [h0]
  · by_cases h2 : 10 < nanCount bars
    · have h1 : 0 < nanCount bars := by omega
      simp [h0, h1, h2]
    · by_cases h1 : 0 < nanCount bars
      · simp [h0, h1, h2]
      · simp [h0, h1, h2]

theorem check_zeros_and_nans_data (bars : List Bar) :
    (check_zeros_and_nans bars).2.1
      = if (!hasZeroClose bars && decide (0 < nanCount bars)
            && decide (nanCount bars ≤ 10)) = true
        then ffillBars bars else bars := by
  unfold check_zeros_and_nans
  by_cases h0 : hasZeroClose bars
  · simp [h0]
  · by_cases h2 : 10 < nanCount bars
    · have h1 : 0 < nanCount bars := by omega
      simp [h0, h1, h2, Nat.not_le.mpr h2]
    · by_cases h1 : 0 < nanCount bars
      · simp [h0, h1, h2, Nat.le_of_not_lt h2]
      · simp [h0, h1, Nat.le_of_not_lt h2]

theorem check_zeros_and_nans_data_cases (bars : List Bar) :
    (check_zeros_and_nans bars).2.1 = bars
      ∨ (check_zeros_and_nans bars).2.1 = ffillBars bars := by
  rw [check_zeros_and_nans_data]
  split_ifs <;> simp

theorem check_zeros_and_nans_data_noNaN (bars : List Bar) (h : nanCount bars = 0) :
    (check_zeros_and_nans bars).2.1 = bars := by
  rw [check_zeros_and_nans_data, h]
  simp

theorem run_all_checks_no_stale (now : ℤ) (bars : List Bar)
    (hrec : check_recency now bars = true) :
    ∀ lag d0, (run_all_checks now bars).logs ≠ [CheckMsg.stale lag d0] := by
  intro lag d0
  unfold run_all_checks
  by_cases he : bars.isEmpty
  · simp [he]
  · simp only [he, Bool.false_eq_true, if_false, hrec, Bool.not_true, if_neg]
    by_cases hl : check_length bars
    · simp only [hl, Bool.not_true, Bool.false_eq_true, if_false]
      rcases hc : check_zeros_and_nans bars with ⟨pass, d, ms⟩
      have hm := check_zeros_and_nans_msgs bars
      rw [hc] at hm
      cases pass with
      | false =>
        replace hm : ms
            = if hasZeroClose bars = true then [CheckMsg.zeroClose]
              else if 10 < nanCount bars then [CheckMsg.tooManyNaN (nanCount bars)]
              else [] := hm
        rw [hm]
        split_ifs <;> simp
      | true =>
        cases hx : (extremeDays d).getLast? with
        | none => simp [hx]
        | some p => simp [hx]
    · simp [hl]

/-- C5 (amended): the validator's checks run in the fixed order non-empty,
recency, minimum length, zero/NaN, extreme move, and the first failing check
short-circuits; consequently every non-empty series that passes the recency
check, is shorter than the minimum length and contains a zero close fails with
the length message and not the zero-close message.  (As originally stated the
claim also covered stale series, where the recency check fails first; see the
counterexample.) -/
theorem c5_short_circuit (now : ℤ) (bars : List Bar) (hne : bars ≠ [])
    (hrec : check_recency now bars = true) (hshort : bars.length < 500)
    (_hzero : hasZeroClose bars = true) :
    (run_all_checks now bars).passed = false
    ∧ (run_all_checks now bars).logs = [CheckMsg.tooShort bars.length 500]
    ∧ CheckMsg.zeroClose ∉ (run_all_checks now bars).logs := by
  have hempty : bars.isEmpty = false := by simpa using hne
  have hlen : check_length bars = false := by
    simp only [check_length, decide_eq_false_iff_not]
    omega
  have hrun : run_all_checks now bars
      = ⟨false, bars, [CheckMsg.tooShort bars.length 500]⟩ := by
    unfold run_all_checks
    simp [hempty, hrec, hlen]
  rw [hrun]
  refine ⟨rfl, rfl, ?_⟩
  simp

/-- C5 counterexample: a one-bar series with close 0 whose date lies 100 days
before `now` is shorter than the minimum length and contains a zero close, yet
its failing report carries the recency (stale) message, not the length
message: the recency check runs before the length check, so the claim's
universal statement fails for stale series. -/
theorem c5_counterexample :
    ([Bar.mk 0 (some 0)].length < 500)
    ∧ hasZeroClose [Bar.mk 0 (some 0)] = true
    ∧ (run_all_checks 100 [Bar.mk 0 (some 0)]).logs = [CheckMsg.stale 100 0]
    ∧ (run_all_checks 100 [Bar.mk 0 (some 0)]).logs
        ≠ [CheckMsg.tooShort 1 500] := by decide

theorem c5_witness :
    (run_all_checks 0 [Bar.mk 0 (some 0)]).passed = false
    ∧ (run_all_checks 0 [Bar.mk 0 (some 0)]).logs = [CheckMsg.tooShort 1 500]
    ∧ CheckMsg.zeroClose ∉ (run_all_checks 0 [Bar.mk 0 (some 0)]).logs :=
  c5_short_circuit 0 [Bar.mk 0 (some 0)] (by decide) (by decide) (by decide) (by decide)

/-- C6: in the zero/NaN sanitation check, any zero-valued close is an
immediate hard failure (zero-close message, no repair); missing closes are
tolerated up to a count of 10, in which case the data is repaired in place by
forward-filling each missing close from the last valid value and the check
passes so validation continues; a count exceeding 10 is a hard failure. -/
theorem c6_zero_nan_check (bars : List Bar) (i : ℕ) :
    ((check_zeros_and_nans bars).1
        = (!hasZeroClose bars && decide (nanCount bars ≤ 10)))
    ∧ ((check_zeros_and_nans bars).2.2
        = if hasZeroClose bars then [CheckMsg.zeroClose]
          else if 10 < nanCount bars then [CheckMsg.tooManyNaN (nanCount bars)]
          else [])
    ∧ ((check_zeros_and_nans bars).2.1
        = if (!hasZeroClose bars && decide (0 < nanCount bars)
              && decide (nanCount bars ≤ 10)) = true
          then ffillBars bars else bars)
    ∧ (i < bars.length →
        ((ffillBars bars).getD i (Bar.mk 0 none)).close
          = lastKnown none ((bars.take (i + 1)).map (fun b => b.close))
        ∧ ((ffillBars bars).getD i (Bar.mk 0 none)).date
          = (bars.getD i (Bar.mk 0 none)).date) :=
  ⟨check_zeros_and_nans_pass bars, check_zeros_and_nans_msgs bars,
   check_zeros_and_nans_data bars,
   fun hi => ⟨ffillGo_close_getD bars none i hi, ffillGo_date_getD bars none i⟩⟩

theorem c6_witness :
    (check_zeros_and_nans [Bar.mk 0 (some 1), Bar.mk 1 none]).1 = true
    ∧ ((ffillBars [Bar.mk 0 (some 1), Bar.mk 1 none]).getD 1 (Bar.mk 0 none)).close
        = some 1 := by
  have h := c6_zero_nan_check [Bar.mk 0 (some 1), Bar.mk 1 none] 1
  refine ⟨?_, ?_⟩
  · rw [h.1]; decide
  · rw [(h.2.2.2 (by decide)).1]; decide

/-- C7: on a non-empty series the run fails with exactly the recency message
(carrying the lag in days and the stale date) precisely when the last bar's
timezone-stripped date lies more than 5 days before `now`; in particular a lag
of 10 days fails validation with a recency message whose rendered text
contains "10". -/
theorem c7_recency (now : ℤ) (bars : List Bar) (hne : bars ≠ []) :
    ((run_all_checks now bars).logs
        = [CheckMsg.stale (daysDiff now bars) (lastDate bars)]
      ↔ 5 < daysDiff now bars)
    ∧ (daysDiff now bars = 10 →
        (run_all_checks now bars).passed = false
        ∧ (run_all_checks now bars).logs = [CheckMsg.stale 10 (lastDate bars)]
        ∧ ∃ s t, (renderMsg (CheckMsg.stale 10 (lastDate bars))).data
            = s ++ ('1' :: '0' :: []) ++ t) := by
  have hempty : bars.isEmpty = false := by simpa using hne
  by_cases hd : 5 < daysDiff now bars
  · have hrec : check_recency now bars = false := by
      simp only [check_recency, decide_eq_false_iff_not]
      omega
    have hlogs : (run_all_checks now bars).logs
        = [CheckMsg.stale (daysDiff now bars) (lastDate bars)] := by
      unfold run_all_checks
      simp [hempty, hrec]
    refine ⟨⟨fun _ => hd, fun _ => hlogs⟩, ?_⟩
    intro h10
    refine ⟨?_, ?_, ?_⟩
    · unfold run_all_checks
      simp [hempty, hrec]
    · rw [hlogs, h10]
    · refine ⟨("stale data (behind ").data,
        (" days, last date: " ++ toString (lastDate bars) ++ ")").data, ?_⟩
      simp only [renderMsg, String.data_append]
      have h10d : (toString (10 : ℤ)).data = ['1', '0'] := by decide
      rw [h10d]
      simp
  · have hrec : check_recency now bars = true := by
      simp only [check_recency, decide_eq_true_eq]
      omega
    refine ⟨⟨?_, ?_⟩, ?_⟩
    · intro hlogs
      exact absurd hlogs (run_all_checks_no_stale now bars hrec _ _)
    · intro h5
      exact absurd h5 hd
    · intro h10
      exact absurd (by omega : 5 < daysDiff now bars) hd

theorem c7_witness :
    ((run_all_checks 10 [Bar.mk 0 (some 1)]).logs = [CheckMsg.stale 10 0]
      ↔ (5 : ℤ) < 10)
    ∧ ((10 : ℤ) = 10 →
        (run_all_checks 10 [Bar.mk 0 (some 1)]).passed = false
        ∧ (run_all_checks 10 [Bar.mk 0 (some 1)]).logs = [CheckMsg.stale 10 0]
        ∧ ∃ s t, (renderMsg (CheckMsg.stale 10 0)).data
            = s ++ ('1' :: '0' :: []) ++ t) :=
  c7_recency 10 [Bar.mk 0 (some 1)] (by decide)

/-- C10: running all validator checks returns the input frame either unchanged
or replaced by its forward-filled repair (the single mutation, performed only
inside the zero/NaN check when missing closes are within tolerance), and on a
series with no missing closes the frame is always returned unchanged. -/
theorem c10_frame (now : ℤ) (bars : List Bar) :
    ((run_all_checks now bars).data = bars
      ∨ (run_all_checks now bars).data = ffillBars bars)
    ∧ (nanCount bars = 0 → (run_all_checks now bars).data = bars) := by
  constructor
  · unfold run_all_checks
    by_cases he : bars.isEmpty
    · simp [he]
    · simp only [he, Bool.false_eq_true, if_false]
      by_cases hr : check_recency now bars
      · simp only [hr, Bool.not_true, Bool.false_eq_true, if_false]
        by_cases hl : check_length bars
        · simp only [hl, Bool.not_true, Bool.false_eq_true, if_false]
          rcases hc : check_zeros_and_nans bars with ⟨pass, d, ms⟩
          have hd := check_zeros_and_nans_data_cases bars
          rw [hc] at hd
          replace hd : d = bars ∨ d = ffillBars bars := hd
          cases pass with
          | false => simpa using hd
          | true =>
            cases hx : (extremeDays d).getLast? with
            | none => simpa [hx] using hd
            | some p => simpa [hx] using hd
        · simp [hl]
      · simp [hr]
  · intro h0
    unfold run_all_checks
    by_cases he : bars.isEmpty
    · simp [he]
    · simp only [he, Bool.false_eq_true, if_false]
      by_cases hr : check_recency now bars
      · simp only [hr, Bool.not_true, Bool.false_eq_true, if_false]
        by_cases hl : check_length bars
        · simp only [hl, Bool.not_true, Bool.false_eq_true, if_false]
          rcases hc : check_zeros_and_nans bars with ⟨pass, d, ms⟩
          have hd := check_zeros_and_nans_data_noNaN bars h0
          rw [hc] at hd
          replace hd : d = bars := hd
          subst hd
          cases pass with
          | false => simp
          | true =>
            cases hx : (extremeDays d).getLast? with
            | none => simp [hx]
            | some p => simp [hx]
        · simp [hl]
      · simp [hr]

theorem c10_witness :
    (run_all_checks 0 ([] : List Bar)).data = [] :=
  (c10_frame 0 []).2 rfl
